import Mathlib

/-!
Shallow embedding of the rc-bridge link layer (file rc-bridge.hpp,
namespace RCBridge): the frame codec, the pairing state machines of
BasicSender and BasicReceiver, the link-quality estimator, the channel
hopper and the reset operation.  Machine integers are modelled as
Nat/Int with explicit wrap-around where the C code converts between
widths; the float quality estimator is modelled over the exact
rationals (the spec states the algebraic recurrence); the radio
primitive (esp_now_send), the channel setter (wifi_set_channel) and the
blob store (LittleFS) are external interfaces, modelled as explicit
inputs and recorded effects.
-/

namespace RCBridge

/-- Protocol constants from RCBridgeBase. -/
def MIN_CHANNEL : Nat := 1

def MAX_CHANNEL : Nat := 13

def INIT_CHANNEL : Nat := 7

def CMD_SEARCH : Nat := 1

def RPL_SEARCH : Nat := 2

def CMD_HOP : Nat := 3

def RPL_HOP : Nat := 4

def CMD_DATA : Nat := 5

/-- Conversion of a C int value to int8_t (two-complement wrap). -/
def int8ofInt (n : Int) : Int :=
  (n + 128) % 256 - 128

/-- Conversion of a C int value to uint8_t (wrap modulo 256). -/
def uint8ofInt (n : Int) : Nat :=
  ((n % 256).toNat)

/-!
RCBridgeBase::reset.  The blob store (LittleFS) is an external
interface; it is modelled by whether the peer blob exists and by the
disposition of a remove call on it.  reset returns the new store
together with its boolean result: it removes the peer blob when
present, reports failure when the remove fails, and reports success
when the blob is already absent.
-/

/-- State of the blob store as seen by reset: whether the peer blob
(FPATH_PEER) exists, and whether a remove call on it would succeed. -/
structure BlobStore where
  hasPeer : Bool
  removeOk : Bool
deriving DecidableEq

namespace RCBridgeBase

/-- Embedding of RCBridgeBase::reset: if the peer blob exists, remove
it (failure of the remove is reported as failure); otherwise succeed. -/
def reset (fs : BlobStore) : BlobStore × Bool :=
  if fs.hasPeer then
    if fs.removeOk then ({ fs with hasPeer := false }, true)
    else (fs, false)
  else (fs, true)

end RCBridgeBase

/-!
BasicSender.  Its state is the matched flag of the base class, the
radio_quality estimator and the peer record.  The quality estimator is
a float in the source; it is modelled over ℚ with the exact constants
1/100 and 3/4 (= 0.75).
-/

/-- State of a BasicSender: pairing flag, quality estimator, peer
record (address and key as byte lists). -/
structure SenderState where
  matched : Bool
  radio_quality : ℚ
  peerAddr : List Nat
  peerKey : List Nat
deriving DecidableEq

/-- Observable calls a BasicSender handler makes into the substrate. -/
inductive SEffect where
  | setChannel (ch : Nat)
deriving DecidableEq

namespace BasicSender

/-- Weight of the new sample in the exponential moving average. -/
def quality_weight : ℚ := 1 / 100

/-- Quality threshold that triggers a hop command. -/
def hop_threshold : ℚ := 3 / 4

/-- Sender state right after begin(): radio_quality = 1.0. The matched
flag becomes true once the peer is loaded or discovered. -/
def init (addr key : List Nat) : SenderState :=
  { matched := true, radio_quality := 1, peerAddr := addr, peerKey := key }

/-- Embedding of BasicSender::send.  data is the user payload (len =
data.length); accepts is the synchronous accept/reject behaviour of
esp_now_send on the handed frame.  Returns the boolean result together
with the frame handed to the primitive (none when no frame was handed). -/
def send (data : List Nat) (accepts : List Nat → Bool) :
    Bool × Option (List Nat) :=
  if data.length > 249 then (false, none)
  else
    let frame := CMD_DATA :: data
    if accepts frame then (true, some frame) else (false, some frame)

/-- Embedding of BasicSender::onReceived.  Unpaired: a well-formed
SEARCH_REPLY (17 bytes, tag RPL_SEARCH) installs the peer and sets
matched.  Paired: a well-formed HOP_REPLY (2 bytes, tag RPL_HOP) passes
its channel byte to wifi_set_channel; the result of that call only
affects logging, not state. -/
def onReceived (s : SenderState) (addr frame : List Nat) :
    SenderState × List SEffect :=
  if s.matched = false then
    if frame.length = 1 + 16 ∧ frame.headI = RPL_SEARCH then
      ({ s with peerAddr := addr, peerKey := frame.tail, matched := true }, [])
    else (s, [])
  else
    if frame.length = 2 ∧ frame.headI = RPL_HOP then
      (s, [.setChannel frame.tail.headI])
    else (s, [])

/-- One step of the quality estimator on an ack report:
radio_quality * cw + (status == 0) * quality_weight, cw = 1 - quality_weight. -/
def qualityUpdate (q : ℚ) (status : Nat) : ℚ :=
  q * (1 - quality_weight) + (if status = 0 then (1 : ℚ) else 0) * quality_weight

/-- Embedding of BasicSender::onSent.  hopSendOk is the accept/reject
result of esp_now_send on the 1-byte CMD_HOP frame, consulted only when
that send happens.  The boolean output records whether a CMD_HOP frame
was handed to esp_now_send (a HOP_REQUEST emission). -/
def onSent (s : SenderState) (status : Nat) (hopSendOk : Bool) :
    SenderState × Bool :=
  if s.matched = false then (s, false)
  else
    let q := qualityUpdate s.radio_quality status
    if q < hop_threshold then
      if hopSendOk then ({ s with radio_quality := 1 }, true)
      else ({ s with radio_quality := q }, true)
    else ({ s with radio_quality := q }, false)

/-- Fold of onSent over a list of ack reports (status, hopSendOk). -/
def runAcks (s : SenderState) : List (Nat × Bool) → SenderState
  | [] => s
  | e :: es => runAcks (onSent s e.1 e.2).1 es

/-- Fold of onSent over ack reports, also counting the HOP_REQUEST
emissions along the run. -/
def runAcksCount (s : SenderState) : List (Nat × Bool) → SenderState × Nat
  | [] => (s, 0)
  | e :: es =>
    let r := onSent s e.1 e.2
    let rest := runAcksCount r.1 es
    (rest.1, (if r.2 then 1 else 0) + rest.2)

end BasicSender

/-!
BasicReceiver.  Its state is the matched flag of the base class, the
channel hopper state (channel, channel_direction, new_channel) and the
peer record.  The 16 random bytes generated on a SEARCH are an input of
the receive handler (the entropy drawn at that event); the disposition
of wifi_set_channel is an input of the send-callback handler.
-/

/-- State of a BasicReceiver: pairing flag, channel hopper state and
peer record.  channel and new_channel are uint8_t values,
channel_direction is an int8_t value. -/
structure ReceiverState where
  matched : Bool
  channel : Nat
  channel_direction : Int
  new_channel : Nat
  peerAddr : List Nat
  peerKey : List Nat
deriving DecidableEq

/-- Observable calls a BasicReceiver handler makes: a unicast send of a
frame to an address, an onData delivery of a payload to the
application, or a wifi_set_channel call (with its result). -/
inductive REffect where
  | send (addr : List Nat) (frame : List Nat)
  | onData (payload : List Nat)
  | setChannel (ch : Nat) (ok : Bool)
deriving DecidableEq

namespace BasicReceiver

/-- Receiver channel state right after begin(): channel = INIT_CHANNEL,
channel_direction = 1.  The matched flag becomes true on pairing. -/
def init (addr key : List Nat) : ReceiverState :=
  { matched := false, channel := INIT_CHANNEL, channel_direction := 1,
    new_channel := 0, peerAddr := addr, peerKey := key }

/-- Candidate channel computed on a hop command:
new_channel = channel + channel_direction (int sum stored into a
uint8_t), reflected to MAX_CHANNEL - 1 above MAX_CHANNEL and to
MIN_CHANNEL + 1 below MIN_CHANNEL. -/
def hopCandidate (channel : Nat) (direction : Int) : Nat :=
  let n := uint8ofInt ((channel : Int) + direction)
  if n > MAX_CHANNEL then MAX_CHANNEL - 1
  else if n < MIN_CHANNEL then MIN_CHANNEL + 1
  else n

/-- Embedding of BasicReceiver::onReceived.  fresh is the 16 random
bytes generated at this event (used only on a SEARCH while unpaired).
Unpaired: a 1-byte SEARCH installs the sender address, generates a
fresh key and unicasts {RPL_SEARCH, key} back (a send failure only
logs).  Paired: a 1-byte CMD_HOP computes and stores the candidate and
unicasts {RPL_HOP, candidate} to the peer; a CMD_DATA frame of any
length >= 1 delivers its tail to onData; everything else is dropped. -/
def onReceived (s : ReceiverState) (addr frame fresh : List Nat) :
    ReceiverState × List REffect :=
  if s.matched = false then
    if frame.length = 1 ∧ frame.headI = CMD_SEARCH then
      ({ s with peerAddr := addr, peerKey := fresh },
       [.send addr (RPL_SEARCH :: fresh)])
    else (s, [])
  else
    if frame.length = 1 ∧ frame.headI = CMD_HOP then
      let cand := hopCandidate s.channel s.channel_direction
      ({ s with new_channel := cand }, [.send s.peerAddr [RPL_HOP, cand]])
    else if 1 ≤ frame.length ∧ frame.headI = CMD_DATA then
      (s, [.onData frame.tail])
    else (s, [])

/-- Embedding of BasicReceiver::onSent.  setChOk is the disposition of
the wifi_set_channel call (consulted only when that call happens).
Unpaired: a status-0 ack commits the pairing.  Paired: a status-0 ack
calls wifi_set_channel(new_channel); on success channel_direction :=
new_channel - channel (int difference stored into an int8_t) and
channel := new_channel; on failure both are left unchanged. -/
def onSent (s : ReceiverState) (status : Nat) (setChOk : Bool) :
    ReceiverState × List REffect :=
  if s.matched = false then
    if status = 0 then ({ s with matched := true }, []) else (s, [])
  else
    if status = 0 then
      if setChOk then
        ({ s with
            channel_direction :=
              int8ofInt ((s.new_channel : Int) - (s.channel : Int)),
            channel := s.new_channel },
         [.setChannel s.new_channel true])
      else (s, [.setChannel s.new_channel false])
    else (s, [])

end BasicReceiver

/-- An upcall event delivered to a BasicReceiver: a received frame
(with the entropy drawn at that event) or a send-status callback (with
the disposition of a wifi_set_channel call made inside it). -/
inductive RxEvent where
  | recv (addr frame fresh : List Nat)
  | sent (status : Nat) (setChOk : Bool)
deriving DecidableEq

namespace BasicReceiver

/-- Dispatch of one upcall event to the matching handler. -/
def stepR (s : ReceiverState) (e : RxEvent) : ReceiverState × List REffect :=
  match e with
  | .recv addr frame fresh => onReceived s addr frame fresh
  | .sent status ok => onSent s status ok

/-- Fold of stepR over a list of upcall events. -/
def runR (s : ReceiverState) : List RxEvent → ReceiverState
  | [] => s
  | e :: es => runR (stepR s e).1 es

end BasicReceiver

end RCBridge

namespace RCBridge

open BasicSender BasicReceiver

/-- C1 counterexample: the claim states that send fails with
PayloadTooLarge when the length equals 0, but BasicSender::send only
checks len > 249: a zero-length payload is accepted, the 1-byte frame
{CMD_DATA} is handed to the primitive and the call returns Ok. -/
theorem send_zero_length_accepted :
    BasicSender.send [] (fun _f => true) = (true, some [CMD_DATA]) := rfl

/-- C1 (amended): send fails only when the payload length is greater
than 249 (a zero-length payload is not rejected); otherwise it prepends
the tag byte CMD_DATA = 5, hands the resulting (length+1)-byte frame to
the unicast primitive, and returns Ok exactly when the primitive
accepted the frame. -/
theorem send_payload_limit (data : List Nat) (accepts : List Nat → Bool) :
    ((BasicSender.send data accepts).1 = true ↔
      data.length ≤ 249 ∧ accepts (CMD_DATA :: data) = true) ∧
    (data.length > 249 → BasicSender.send data accepts = (false, none)) ∧
    (data.length ≤ 249 →
      (BasicSender.send data accepts).2 = some (CMD_DATA :: data) ∧
      (CMD_DATA :: data).length = data.length + 1) := by
  unfold BasicSender.send
  by_cases h : data.length > 249
  · simp [h]
    try omega
  · by_cases ha : accepts (CMD_DATA :: data) <;> simp [h, ha] <;> try omega

/-- C1 witness: a 250-byte payload is rejected with no frame handed to
the radio, and a 249-byte payload produces a 250-byte on-wire frame
05 || payload. -/
theorem send_payload_limit_witness :
    BasicSender.send (List.replicate 250 7) (fun _f => true) = (false, none) ∧
    (BasicSender.send (List.replicate 249 7) (fun _f => true)).2 =
      some (CMD_DATA :: List.replicate 249 7) ∧
    (CMD_DATA :: List.replicate 249 7).length = 250 :=
  ⟨(send_payload_limit (List.replicate 250 7) (fun _f => true)).2.1
     (by rw [List.length_replicate]; omega),
   ((send_payload_limit (List.replicate 249 7) (fun _f => true)).2.2
     (by rw [List.length_replicate])).1,
   by rw [List.length_cons, List.length_replicate]⟩

/-- C2 counterexample: the claim states that a DATA frame of total
length 1 is silently dropped, but the paired receiver accepts any frame
with tag CMD_DATA of length at least 1 and delivers its (here empty)
tail to onData. -/
theorem data_frame_len1_delivered :
    BasicReceiver.onReceived
      ⟨true, INIT_CHANNEL, 1, 0, [], []⟩ [9, 9, 9, 9, 9, 9] [CMD_DATA] [] =
      (⟨true, INIT_CHANNEL, 1, 0, [], []⟩, [REffect.onData []]) := rfl

/-- C2 (amended): the paired receiver accepts every frame whose tag
byte is CMD_DATA = 5 of total length at least 1 (so 1..250 on the
wire) and delivers the payload (the frame minus the tag) to onData,
with no state change; in particular a frame of total length 1 delivers
an empty payload instead of being dropped. -/
theorem data_frame_dispatch (s : ReceiverState) (addr fresh payload : List Nat)
    (h : s.matched = true) :
    BasicReceiver.onReceived s addr (CMD_DATA :: payload) fresh =
      (s, [REffect.onData payload]) := by
  unfold BasicReceiver.onReceived
  rcases payload with _ | ⟨b, rest⟩ <;>
    simp [h, CMD_DATA, CMD_HOP, CMD_SEARCH]

/-- C2 witness: a concrete paired receiver delivers the 1-byte DATA
frame as an empty payload, and a 3-byte DATA frame as its 2-byte
payload. -/
theorem data_frame_dispatch_witness :
    BasicReceiver.onReceived
      (⟨true, 7, 1, 0, [1, 2, 3, 4, 5, 6], []⟩ : ReceiverState)
      [9, 9, 9, 9, 9, 9] [CMD_DATA] [] =
      (⟨true, 7, 1, 0, [1, 2, 3, 4, 5, 6], []⟩, [REffect.onData []]) ∧
    BasicReceiver.onReceived
      (⟨true, 7, 1, 0, [1, 2, 3, 4, 5, 6], []⟩ : ReceiverState)
      [9, 9, 9, 9, 9, 9] [CMD_DATA, 17, 34] [] =
      (⟨true, 7, 1, 0, [1, 2, 3, 4, 5, 6], []⟩, [REffect.onData [17, 34]]) :=
  ⟨data_frame_dispatch _ _ _ [] rfl, data_frame_dispatch _ _ _ [17, 34] rfl⟩

/-- C9: reset is idempotent on every blob-store state (running it a
second time changes nothing and returns the same result); it removes
the persisted peer blob when present and the remove succeeds, and it
reports success when the blob is already absent. -/
theorem reset_idempotent (fs : BlobStore) :
    RCBridgeBase.reset (RCBridgeBase.reset fs).1 =
      ((RCBridgeBase.reset fs).1, (RCBridgeBase.reset fs).2) ∧
    (fs.hasPeer = true → fs.removeOk = true →
      RCBridgeBase.reset fs = ({ fs with hasPeer := false }, true)) ∧
    (fs.hasPeer = false → RCBridgeBase.reset fs = (fs, true)) := by
  rcases fs with ⟨hp, ro⟩
  rcases hp <;> rcases ro <;> decide

/-- C9 witness: on the store that holds the peer blob and whose remove
succeeds, one reset removes the blob and a second reset is a no-op with
the same successful result. -/
theorem reset_idempotent_witness :
    RCBridgeBase.reset (RCBridgeBase.reset ⟨true, true⟩).1 =
      ((RCBridgeBase.reset ⟨true, true⟩).1, (RCBridgeBase.reset ⟨true, true⟩).2) ∧
    RCBridgeBase.reset ⟨true, true⟩ = (⟨false, true⟩, true) :=
  ⟨(reset_idempotent ⟨true, true⟩).1,
   (reset_idempotent ⟨true, true⟩).2.1 rfl rfl⟩

/-- One estimator step stays inside [0, 1]: the update is a convex
combination of the previous quality and the 0/1 ack sample. -/
theorem qualityUpdate_mem (q : ℚ) (st : Nat) (h0 : 0 ≤ q) (h1 : q ≤ 1) :
    0 ≤ qualityUpdate q st ∧ qualityUpdate q st ≤ 1 := by
  unfold qualityUpdate quality_weight
  by_cases hst : st = 0 <;> simp [hst] <;> constructor <;> nlinarith

/-- The sender ack handler keeps the quality estimator inside [0, 1]. -/
theorem onSent_quality_mem (s : SenderState) (st : Nat) (ok : Bool)
    (h0 : 0 ≤ s.radio_quality) (h1 : s.radio_quality ≤ 1) :
    0 ≤ (BasicSender.onSent s st ok).1.radio_quality ∧
      (BasicSender.onSent s st ok).1.radio_quality ≤ 1 := by
  unfold BasicSender.onSent
  have hq := qualityUpdate_mem s.radio_quality st h0 h1
  by_cases hm : s.matched = false <;>
    by_cases hlt : qualityUpdate s.radio_quality st < hop_threshold <;>
      rcases ok <;> simp [hm, hlt] <;> try exact ⟨h0, h1⟩
  all_goals try exact hq

/-- Every fold of the ack handler from a state with quality in [0, 1]
stays in [0, 1]. -/
theorem runAcks_quality_mem (evs : List (Nat × Bool)) :
    ∀ s : SenderState, 0 ≤ s.radio_quality → s.radio_quality ≤ 1 →
      0 ≤ (runAcks s evs).radio_quality ∧ (runAcks s evs).radio_quality ≤ 1 := by
  induction evs with
  | nil => intro s h0 h1; exact ⟨h0, h1⟩
  | cons e es ih =>
    intro s h0 h1
    have h := onSent_quality_mem s e.1 e.2 h0 h1
    exact ih _ h.1 h.2

/-- C7: for every sequence of ack outcomes (each with the disposition
of a hop-command send), starting from the initial quality 1.0 of a
paired sender, the quality estimator stays in the closed interval
[0, 1] at all times (every prefix of a run is itself a run). -/
theorem quality_estimator_bounds (addr key : List Nat)
    (evs : List (Nat × Bool)) :
    0 ≤ (runAcks (BasicSender.init addr key) evs).radio_quality ∧
      (runAcks (BasicSender.init addr key) evs).radio_quality ≤ 1 :=
  runAcks_quality_mem evs (BasicSender.init addr key)
    (by norm_num [BasicSender.init]) (by norm_num [BasicSender.init])

/-- C6: whenever the updated quality falls below the 0.75 threshold on
a paired sender, a HOP_REQUEST is handed to the radio in both
dispositions; the quality is reset to 1.0 exactly when the send
primitive accepted the frame, and is left at the decayed value when it
rejected it, so the next failed ack report triggers again. -/
theorem hop_request_quality_reset (s : SenderState) (st : Nat)
    (hm : s.matched = true)
    (hlow : qualityUpdate s.radio_quality st < hop_threshold) :
    (∀ ok, (BasicSender.onSent s st ok).2 = true) ∧
    (BasicSender.onSent s st true).1.radio_quality = 1 ∧
    (BasicSender.onSent s st false).1.radio_quality =
      qualityUpdate s.radio_quality st ∧
    (∀ st2 ok2, st2 ≠ 0 →
      (BasicSender.onSent (BasicSender.onSent s st false).1 st2 ok2).2 = true) := by
  have hm2 : ¬ s.matched = false := by simp [hm]
  refine ⟨?_, ?_, ?_, ?_⟩
  · intro ok; unfold BasicSender.onSent; rcases ok <;> simp [hm2, hlow]
  · unfold BasicSender.onSent; simp [hm2, hlow]
  · unfold BasicSender.onSent; simp [hm2, hlow]
  · intro st2 ok2 hst2
    have hs1 : (BasicSender.onSent s st false).1 =
        { s with radio_quality := qualityUpdate s.radio_quality st } := by
      unfold BasicSender.onSent; simp [hm2, hlow]
    have hretrig : qualityUpdate (qualityUpdate s.radio_quality st) st2 <
        hop_threshold := by
      unfold qualityUpdate quality_weight hop_threshold at hlow ⊢
      by_cases hst : st = 0 <;> simp [hst, hst2] at hlow ⊢ <;> nlinarith
    rw [hs1]
    unfold BasicSender.onSent
    rcases ok2 <;> simp [hm2, hretrig]

/-- C6 witness: a concrete paired sender at quality 1/2 receiving a
failed ack drops below the threshold, emits a hop command whether or
not the radio accepts it, resets to 1.0 on accept, and re-emits on the
next failed ack after a reject. -/
theorem hop_request_quality_reset_witness :
    (BasicSender.onSent (⟨true, 1/2, [], []⟩ : SenderState) 1 true).1.radio_quality
      = 1 ∧
    (BasicSender.onSent (⟨true, 1/2, [], []⟩ : SenderState) 1 false).2 = true ∧
    (BasicSender.onSent
      (BasicSender.onSent (⟨true, 1/2, [], []⟩ : SenderState) 1 false).1
      1 false).2 = true := by
  have hlow : qualityUpdate ((⟨true, 1/2, [], []⟩ : SenderState)).radio_quality 1
      < hop_threshold := by
    norm_num [qualityUpdate, quality_weight, hop_threshold]
  exact ⟨(hop_request_quality_reset _ 1 rfl hlow).2.1,
    (hop_request_quality_reset _ 1 rfl hlow).1 false,
    (hop_request_quality_reset _ 1 rfl hlow).2.2.2 1 false (by norm_num)⟩

/-- C4: from every in-range channel state (current in [1,13],
direction +1 or -1) the candidate computed on a hop command is
current + direction reflected at the bounds, lies in
[MIN_CHANNEL, MAX_CHANNEL], differs from the current channel, equals
12 at the upper edge (13, +1) and 2 at the lower edge (1, -1); the
direction a commit would store (new - old as an int8_t value) is
again +1 or -1, and at the edges it is the flipped sign of the old
direction. -/
theorem hop_candidate_reflection (c : Nat) (d : Int)
    (h1 : MIN_CHANNEL ≤ c) (h2 : c ≤ MAX_CHANNEL) (hd : d = 1 ∨ d = -1) :
    (MIN_CHANNEL ≤ hopCandidate c d ∧ hopCandidate c d ≤ MAX_CHANNEL) ∧
    hopCandidate c d ≠ c ∧
    (hopCandidate c d =
      if (MAX_CHANNEL : Int) < (c : Int) + d then MAX_CHANNEL - 1
      else if (c : Int) + d < (MIN_CHANNEL : Int) then MIN_CHANNEL + 1
      else ((c : Int) + d).toNat) ∧
    (c = 13 → d = 1 → hopCandidate c d = 12) ∧
    (c = 1 → d = -1 → hopCandidate c d = 2) ∧
    ((c = 13 ∧ d = 1) ∨ (c = 1 ∧ d = -1) →
      int8ofInt ((hopCandidate c d : Int) - (c : Int)) = -d) ∧
    (int8ofInt ((hopCandidate c d : Int) - (c : Int)) = 1 ∨
      int8ofInt ((hopCandidate c d : Int) - (c : Int)) = -1) := by
  norm_num [MIN_CHANNEL, MAX_CHANNEL] at h1 h2
  rcases hd with hd | hd <;> subst hd <;> interval_cases c <;> decide

/-- C4 witness: at the upper edge (13, +1) the candidate is 12 and the
stored direction flips to -1; at the lower edge (1, -1) the candidate
is 2 and the stored direction flips to +1. -/
theorem hop_candidate_reflection_witness :
    hopCandidate 13 1 = 12 ∧
    int8ofInt ((hopCandidate 13 1 : Int) - (13 : Int)) = -1 ∧
    hopCandidate 1 (-1) = 2 ∧
    int8ofInt ((hopCandidate 1 (-1) : Int) - (1 : Int)) = 1 :=
  ⟨(hop_candidate_reflection 13 1 (by decide) (by decide) (Or.inl rfl)).2.2.2.1
      rfl rfl,
   (hop_candidate_reflection 13 1 (by decide) (by decide) (Or.inl rfl)).2.2.2.2.2.1
      (Or.inl ⟨rfl, rfl⟩),
   (hop_candidate_reflection 1 (-1) (by decide) (by decide) (Or.inr rfl)).2.2.2.2.1
      rfl rfl,
   (hop_candidate_reflection 1 (-1) (by decide) (by decide) (Or.inr rfl)).2.2.2.2.2.1
      (Or.inr ⟨rfl, rfl⟩)⟩

/-- While unpaired, a receive upcall never sets the matched flag, and a
send upcall with a failing status leaves the receiver unchanged. -/
theorem stepR_unmatched (s : ReceiverState) (e : RxEvent)
    (hm : s.matched = false)
    (hfail : ∀ st ok, e = RxEvent.sent st ok → st ≠ 0) :
    (stepR s e).1.matched = false := by
  rcases e with ⟨addr, frame, fresh⟩ | ⟨st, ok⟩
  · unfold stepR BasicReceiver.onReceived
    by_cases h : frame.length = 1 ∧ frame.headI = CMD_SEARCH <;> simp [hm, h]
  · have hst : st ≠ 0 := hfail st ok rfl
    unfold stepR BasicReceiver.onSent
    simp [hm, hst]

/-- A receiver that starts unpaired stays unpaired along any run whose
send upcalls all report failure. -/
theorem runR_unmatched (evs : List RxEvent) :
    ∀ s : ReceiverState, s.matched = false →
      (∀ st ok, RxEvent.sent st ok ∈ evs → st ≠ 0) →
      (runR s evs).matched = false := by
  induction evs with
  | nil => intro s hm _; exact hm
  | cons e es ih =>
    intro s hm hfail
    unfold runR
    refine ih _ (stepR_unmatched s e hm ?_) ?_
    · intro st ok he; exact hfail st ok (he ▸ List.mem_cons_self e es)
    · intro st ok hmem; exact hfail st ok (List.mem_cons_of_mem e hmem)

/-- An unpaired receiver answers a well-formed SEARCH by installing the
sender address, storing the freshly generated key and unicasting
{RPL_SEARCH, key} back. -/
theorem onReceived_search (s : ReceiverState) (hm : s.matched = false)
    (addr fresh : List Nat) :
    BasicReceiver.onReceived s addr [CMD_SEARCH] fresh =
      ({ s with peerAddr := addr, peerKey := fresh },
       [REffect.send addr (RPL_SEARCH :: fresh)]) := by
  unfold BasicReceiver.onReceived
  simp [hm, CMD_SEARCH]

/-- A paired receiver answers a well-formed hop command by storing the
candidate channel and unicasting {RPL_HOP, candidate} to the peer. -/
theorem onReceived_hop (s : ReceiverState) (hm : s.matched = true)
    (addr fresh : List Nat) :
    BasicReceiver.onReceived s addr [CMD_HOP] fresh =
      ({ s with new_channel := hopCandidate s.channel s.channel_direction },
       [REffect.send s.peerAddr
         [RPL_HOP, hopCandidate s.channel s.channel_direction]]) := by
  have hm2 : ¬ s.matched = false := by simp [hm]
  unfold BasicReceiver.onReceived
  simp [hm2, CMD_SEARCH, CMD_HOP, CMD_DATA]

/-- C3: an unpaired receiver becomes paired exactly on a send-status
upcall reporting 0; a failing send-status upcall changes nothing; a
well-formed SEARCH is answered with a SEARCH_REPLY carrying the
freshly generated 16-byte key; and along every run whose send upcalls
all report failure the receiver stays unpaired and still answers each
subsequent SEARCH with a reply carrying the key freshly generated at
that event. -/
theorem receiver_commit_on_ack (s : ReceiverState) (hm : s.matched = false) :
    (∀ st ok, ((BasicReceiver.onSent s st ok).1.matched = true ↔ st = 0)) ∧
    (∀ st ok, st ≠ 0 → BasicReceiver.onSent s st ok = (s, [])) ∧
    (∀ addr fresh, BasicReceiver.onReceived s addr [CMD_SEARCH] fresh =
      ({ s with peerAddr := addr, peerKey := fresh },
       [REffect.send addr (RPL_SEARCH :: fresh)])) ∧
    (∀ evs, (∀ st ok, RxEvent.sent st ok ∈ evs → st ≠ 0) →
      (runR s evs).matched = false ∧
      ∀ addr fresh,
        (stepR (runR s evs) (RxEvent.recv addr [CMD_SEARCH] fresh)).2 =
          [REffect.send addr (RPL_SEARCH :: fresh)]) := by
  refine ⟨?_, ?_, ?_, ?_⟩
  · intro st ok
    unfold BasicReceiver.onSent
    by_cases hst : st = 0 <;> simp [hm, hst]
  · intro st ok hst
    unfold BasicReceiver.onSent
    simp [hm, hst]
  · intro addr fresh
    exact onReceived_search s hm addr fresh
  · intro evs hfail
    have hrun : (runR s evs).matched = false := runR_unmatched evs s hm hfail
    refine ⟨hrun, ?_⟩
    intro addr fresh
    simp only [stepR]
    rw [onReceived_search _ hrun addr fresh]

/-- C3 witness: a concrete unpaired receiver pairs on a status-0 send
upcall; after a failed send upcall it is still unpaired and answers a
SEARCH from a concrete address with a reply carrying the 16 fresh
bytes drawn at that event. -/
theorem receiver_commit_on_ack_witness :
    (BasicReceiver.onSent
      (⟨false, 7, 1, 0, [], []⟩ : ReceiverState) 0 true).1.matched = true ∧
    (runR (⟨false, 7, 1, 0, [], []⟩ : ReceiverState)
      [RxEvent.sent 1 true]).matched = false ∧
    (stepR (runR (⟨false, 7, 1, 0, [], []⟩ : ReceiverState) [RxEvent.sent 1 true])
      (RxEvent.recv [1, 2, 3, 4, 5, 6] [CMD_SEARCH] (List.replicate 16 9))).2 =
      [REffect.send [1, 2, 3, 4, 5, 6] (RPL_SEARCH :: List.replicate 16 9)] := by
  have hfail : ∀ st ok, RxEvent.sent st ok ∈ [RxEvent.sent 1 true] → st ≠ 0 := by
    intro st ok hmem
    simp at hmem
    omega
  have h := receiver_commit_on_ack (⟨false, 7, 1, 0, [], []⟩ : ReceiverState) rfl
  exact ⟨(h.1 0 true).mpr rfl,
    (h.2.2.2 [RxEvent.sent 1 true] hfail).1,
    (h.2.2.2 [RxEvent.sent 1 true] hfail).2 [1, 2, 3, 4, 5, 6]
      (List.replicate 16 9)⟩

/-- C5: on a paired receiver, a receive upcall never calls
wifi_set_channel and never changes the current channel or direction
(so the channel cannot change before the hop reply has left the
radio); a send upcall with failing status does nothing; a status-0
send upcall calls wifi_set_channel with exactly the stored candidate,
committing channel and direction (direction := new - old) on success
and leaving both unchanged on failure; and the committed channel is
exactly the candidate that was carried in the HOP_REPLY, provided the
events between the reply and its ack preserved the stored candidate
and the paired flag. -/
theorem receiver_hop_commit_point (s : ReceiverState) (hm : s.matched = true) :
    (∀ addr frame fresh,
      (BasicReceiver.onReceived s addr frame fresh).1.channel = s.channel ∧
      (BasicReceiver.onReceived s addr frame fresh).1.channel_direction =
        s.channel_direction ∧
      ∀ ch ok,
        REffect.setChannel ch ok ∉ (BasicReceiver.onReceived s addr frame fresh).2) ∧
    (∀ st ok, st ≠ 0 → BasicReceiver.onSent s st ok = (s, [])) ∧
    (∀ ok, (BasicReceiver.onSent s 0 ok).2 = [REffect.setChannel s.new_channel ok]) ∧
    (BasicReceiver.onSent s 0 false).1 = s ∧
    ((BasicReceiver.onSent s 0 true).1.channel = s.new_channel ∧
      (BasicReceiver.onSent s 0 true).1.channel_direction =
        int8ofInt ((s.new_channel : Int) - (s.channel : Int))) ∧
    (∀ addr fresh mid,
      (runR (BasicReceiver.onReceived s addr [CMD_HOP] fresh).1 mid).new_channel =
        hopCandidate s.channel s.channel_direction →
      (runR (BasicReceiver.onReceived s addr [CMD_HOP] fresh).1 mid).matched = true →
      (BasicReceiver.onReceived s addr [CMD_HOP] fresh).2 =
        [REffect.send s.peerAddr
          [RPL_HOP, hopCandidate s.channel s.channel_direction]] ∧
      (BasicReceiver.onSent
          (runR (BasicReceiver.onReceived s addr [CMD_HOP] fresh).1 mid)
          0 true).1.channel =
        hopCandidate s.channel s.channel_direction) := by
  have hm2 : ¬ s.matched = false := by simp [hm]
  refine ⟨?_, ?_, ?_, ?_, ?_, ?_⟩
  · intro addr frame fresh
    unfold BasicReceiver.onReceived
    split_ifs with h0 h1 _h2 _h3 <;> simp_all
  · intro st ok hst
    unfold BasicReceiver.onSent
    simp [hm2, hst]
  · intro ok
    unfold BasicReceiver.onSent
    rcases ok <;> simp [hm2]
  · unfold BasicReceiver.onSent
    simp [hm2]
  · unfold BasicReceiver.onSent
    simp [hm2]
  · intro addr fresh mid hnc hmid
    refine ⟨by rw [onReceived_hop s hm addr fresh], ?_⟩
    have hmid2 : ¬ (runR (BasicReceiver.onReceived s addr [CMD_HOP] fresh).1
        mid).matched = false := by simp [hmid]
    unfold BasicReceiver.onSent
    simp [hmid2, hnc]

/-- C5 witness: a concrete paired receiver at channel 13, direction +1
answers a hop command with a reply carrying candidate 12; a failed ack
leaves it unchanged; a status-0 ack with a failing wifi_set_channel
leaves channel and direction unchanged; and a status-0 ack with a
succeeding wifi_set_channel (no intervening events) commits channel 12,
exactly the candidate carried in the reply. -/
theorem receiver_hop_commit_point_witness :
    (BasicReceiver.onReceived
      (⟨true, 13, 1, 0, [1, 2, 3, 4, 5, 6], []⟩ : ReceiverState)
      [9, 9, 9, 9, 9, 9] [CMD_HOP] []).2 =
      [REffect.send [1, 2, 3, 4, 5, 6] [RPL_HOP, 12]] ∧
    BasicReceiver.onSent
      (⟨true, 13, 1, 0, [1, 2, 3, 4, 5, 6], []⟩ : ReceiverState) 1 true =
      (⟨true, 13, 1, 0, [1, 2, 3, 4, 5, 6], []⟩, []) ∧
    (BasicReceiver.onSent
      (⟨true, 13, 1, 0, [1, 2, 3, 4, 5, 6], []⟩ : ReceiverState) 0 false).1 =
      ⟨true, 13, 1, 0, [1, 2, 3, 4, 5, 6], []⟩ ∧
    (BasicReceiver.onSent
      (runR (BasicReceiver.onReceived
        (⟨true, 13, 1, 0, [1, 2, 3, 4, 5, 6], []⟩ : ReceiverState)
        [9, 9, 9, 9, 9, 9] [CMD_HOP] []).1 [])
      0 true).1.channel = 12 := by
  have h := receiver_hop_commit_point
    (⟨true, 13, 1, 0, [1, 2, 3, 4, 5, 6], []⟩ : ReceiverState) rfl
  have hd := h.2.2.2.2.2 [9, 9, 9, 9, 9, 9] [] [] rfl rfl
  exact ⟨hd.1, h.2.1 1 true (by omega), h.2.2.2.1, hd.2⟩

set_option maxRecDepth 100000

set_option maxHeartbeats 3000000

/-- C8 counterexample: the claim states that a run of 40 consecutive
failed acks causes exactly one HOP_REQUEST emission; when the radio
rejects the hop sends, the quality is never reset, the low-quality
condition keeps firing, and the run emits 12 HOP_REQUEST frames (one
on each ack from the 29th to the 40th), not one. -/
theorem forty_failed_acks_rejected_emissions :
    (runAcksCount (BasicSender.init [] []) (List.replicate 40 (1, false))).2 = 12 ∧
    ¬ (runAcksCount (BasicSender.init [] [])
        (List.replicate 40 (1, false))).2 = 1 := by
  have h : (runAcksCount (BasicSender.init [] [])
      (List.replicate 40 (1, false))).2 = 12 := by
    norm_num [runAcksCount, BasicSender.onSent, qualityUpdate, BasicSender.init,
      quality_weight, hop_threshold, List.replicate]
  exact ⟨h, by rw [h]; omega⟩

/-- C8 (amended): starting from quality 1.0 on a paired sender, 40
consecutive failed acks drive the quality below the 0.75 threshold for
the first time at the 29th ack, where a HOP_REQUEST is emitted; if the
radio accepts the hop sends, that emission is the only one of the run
and the quality resets to 1.0 there (decaying to 0.99^11 by the 40th
ack); if the radio rejects them, the quality is never reset (it decays
to 0.99^40) and every ack from the 29th to the 40th emits a
HOP_REQUEST, 12 emissions in all. -/
theorem forty_failed_acks_amended :
    (runAcksCount (BasicSender.init [] []) (List.replicate 28 (1, false))).2 = 0 ∧
    (runAcksCount (BasicSender.init [] []) (List.replicate 29 (1, false))).2 = 1 ∧
    (runAcks (BasicSender.init [] [])
      (List.replicate 29 (1, false))).radio_quality < hop_threshold ∧
    (runAcksCount (BasicSender.init [] []) (List.replicate 40 (1, true))).2 = 1 ∧
    (runAcks (BasicSender.init [] [])
      (List.replicate 40 (1, true))).radio_quality = (99 / 100 : ℚ) ^ 11 ∧
    (runAcksCount (BasicSender.init [] []) (List.replicate 40 (1, false))).2 = 12 ∧
    (runAcks (BasicSender.init [] [])
      (List.replicate 40 (1, false))).radio_quality = (99 / 100 : ℚ) ^ 40 := by
  refine ⟨?_, ?_, ?_, ?_, ?_, ?_, ?_⟩ <;>
    norm_num [runAcksCount, runAcks, BasicSender.onSent, qualityUpdate,
      BasicSender.init, quality_weight, hop_threshold, List.replicate]

/-- C10: the paired sender passes the channel byte of a well-formed
2-byte HOP_REPLY frame to wifi_set_channel unchanged, for every byte
value 0..255, with no check against [MIN_CHANNEL, MAX_CHANNEL] and no
state change. -/
theorem hop_reply_channel_unchecked (s : SenderState) (addr : List Nat)
    (c : Nat) (h : s.matched = true) (_hc : c ≤ 255) :
    BasicSender.onReceived s addr [RPL_HOP, c] = (s, [SEffect.setChannel c]) := by
  unfold BasicSender.onReceived
  simp [h, RPL_HOP]

/-- C10 witness: the out-of-range channel byte 200 (above MAX_CHANNEL =
13) reaches wifi_set_channel unchanged on a concrete paired sender. -/
theorem hop_reply_channel_unchecked_witness :
    MAX_CHANNEL < 200 ∧
    BasicSender.onReceived
      (⟨true, 1, [1, 2, 3, 4, 5, 6], List.replicate 16 0⟩ : SenderState)
      [1, 2, 3, 4, 5, 6] [RPL_HOP, 200] =
      (⟨true, 1, [1, 2, 3, 4, 5, 6], List.replicate 16 0⟩,
       [SEffect.setChannel 200]) :=
  ⟨by decide,
   hop_reply_channel_unchecked _ _ 200 rfl (by decide)⟩

end RCBridge
